import Mathlib

/-!
Verification of the invoice-link-sharing backend (`src/main.py`,
`src/schemas.py`) against its natural-language specification.

The write path (POST /api/invoices) is embedded as: a raw JSON-level
payload (`RawInvoice`), pydantic-style validation against the `Invoice`
schema of `schemas.py` (`validateInvoice`), the server-side totals
computation of `create_invoice` in `main.py` (`computeStored`), and the
insert into the document store.  Monetary amounts are modelled as exact
rationals; Python's `round(x, 2)` is `round2` (round half to even).

The read path (GET /api/invoices/{id}, GET /public/invoices/{id}) is
embedded over generic documents (`Doc`, association lists of string keys
to JSON values), with `serialize_invoice` and the public-view projection
of `public_invoice` translated field by field from `main.py`.
-/

namespace InvoiceApp

/-- Round half to even of a rational to an integer, mirroring the
tie-breaking of Python's built-in `round` on the exact value. -/
def roundHalfEven (q : ℚ) : ℤ :=
  let f : ℤ := ⌊q⌋
  if q - (f : ℚ) < 1/2 then f
  else if (1 : ℚ)/2 < q - (f : ℚ) then f + 1
  else if f % 2 = 0 then f else f + 1

/-- Python's `round(x, 2)`: round to two decimal places. -/
def round2 (q : ℚ) : ℚ := ((roundHalfEven (q * 100) : ℤ) : ℚ) / 100

/-- A calendar date, the target of pydantic's `date` parsing. -/
structure CalDate where
  year : Nat
  month : Nat
  day : Nat
deriving DecidableEq, Repr

def isLeapYear (y : Nat) : Bool :=
  (y % 4 == 0 && y % 100 != 0) || (y % 400 == 0)

def daysInMonth (y m : Nat) : Nat :=
  if m == 2 then (if isLeapYear y then 29 else 28)
  else if m == 4 || m == 6 || m == 9 || m == 11 then 30
  else 31

/-- Split a character list on a separator character. -/
def splitOnChar (sep : Char) : List Char → List (List Char)
  | [] => [[]]
  | c :: rest =>
      let r := splitOnChar sep rest
      if c == sep then [] :: r
      else
        match r with
        | h :: t => (c :: h) :: t
        | [] => [[c]]

/-- Decimal digits to a number. -/
def digitsToNat (cs : List Char) : Nat :=
  cs.foldl (fun a c => a * 10 + (c.toNat - '0'.toNat)) 0

/-- ISO `YYYY-MM-DD` date parsing, standing in for pydantic's `date`
field parsing (simplified to the ISO calendar-date form). -/
def parseDate (s : String) : Option CalDate :=
  match splitOnChar '-' s.toList with
  | [ys, ms, ds] =>
    if ys.length == 4 && ms.length == 2 && ds.length == 2
        && (ys ++ ms ++ ds).all Char.isDigit then
      let y := digitsToNat ys
      let m := digitsToNat ms
      let d := digitsToNat ds
      if 1 ≤ m ∧ m ≤ 12 ∧ 1 ≤ d ∧ d ≤ daysInMonth y m then
        some ⟨y, m, d⟩
      else none
    else none
  | _ => none

/-- Syntactic email check standing in for pydantic's `EmailStr`
validation (simplified: exactly one `@`, nonempty local part, dotted
domain not starting or ending with a dot, no whitespace). -/
def emailValid (s : String) : Bool :=
  match splitOnChar '@' s.toList with
  | [l, d] =>
      !l.isEmpty && !d.isEmpty && d.contains '.'
        && !(d.head? == some '.') && !(d.getLast? == some '.')
        && l.all (fun c => !c.isWhitespace)
        && d.all (fun c => !c.isWhitespace)
  | _ => false

/-- A field of an incoming JSON payload: absent, present but not
parseable as the declared type (wrong type, malformed email or date made
concrete by the checks below), or a parsed value. -/
inductive FieldVal (α : Type) where
  | missing
  | invalid
  | val (a : α)
deriving DecidableEq, Repr

def optVal {α : Type} : FieldVal α → Option α
  | .val a => some a
  | _ => none

def fvGetD {α : Type} (d : α) : FieldVal α → α
  | .val a => a
  | _ => d

/-- A validated line item, as in `InvoiceItem` of `schemas.py`. -/
structure InvoiceItem where
  description : String
  quantity : ℚ
  unit_price : ℚ
deriving DecidableEq, Repr

/-- A validated invoice, as in the `Invoice` model of `schemas.py`,
with defaults applied. -/
structure Invoice where
  customer_name : String
  customer_email : String
  customer_address : Option String
  invoice_number : Option String
  issue_date : CalDate
  due_date : Option CalDate
  currency : String
  items : List InvoiceItem
  notes : Option String
  status : String
  subtotal : ℚ
  tax : ℚ
  discount : ℚ
  total : ℚ
deriving DecidableEq, Repr

/-- A raw line item of the incoming payload. -/
structure RawItem where
  description : FieldVal String
  quantity : FieldVal ℚ
  unit_price : FieldVal ℚ
deriving DecidableEq, Repr

/-- A raw creation payload: the fields of the `Invoice` schema at JSON
level (dates and emails as strings, still unchecked). -/
structure RawInvoice where
  customer_name : FieldVal String
  customer_email : FieldVal String
  customer_address : FieldVal String
  invoice_number : FieldVal String
  issue_date : FieldVal String
  due_date : FieldVal String
  currency : FieldVal String
  items : FieldVal (List RawItem)
  notes : FieldVal String
  status : FieldVal String
  subtotal : FieldVal ℚ
  tax : FieldVal ℚ
  discount : FieldVal ℚ
  total : FieldVal ℚ
deriving DecidableEq, Repr

/-- Errors contributed by one pydantic field: `required` mirrors
`Field(...)` versus a defaulted field, `check` the declared constraint
(such as `ge=0`); a wrong-typed value always fails.  Yields the
offending field's name, or nothing. -/
def fieldErrs {α : Type} (name : String) (required : Bool) (check : α → Bool) :
    FieldVal α → List String
  | .missing => if required then [name] else []
  | .invalid => [name]
  | .val a => if check a then [] else [name]

/-- Errors of one raw line item against `InvoiceItem` of `schemas.py`:
`description` required, `quantity` defaulted with `ge=0`, `unit_price`
required with `ge=0`. -/
def itemErrs (i : RawItem) : List String :=
  fieldErrs "description" true (fun _ => true) i.description
    ++ fieldErrs "quantity" false (fun q => decide (0 ≤ q)) i.quantity
    ++ fieldErrs "unit_price" true (fun q => decide (0 ≤ q)) i.unit_price

def itemsErrsList : List RawItem → List String
  | [] => []
  | i :: rest => itemErrs i ++ itemsErrsList rest

/-- Errors of the `items` field: defaulted to the empty list when
absent; a wrong-typed value fails; otherwise each item is validated. -/
def itemsErrs : FieldVal (List RawItem) → List String
  | .missing => []
  | .invalid => ["items"]
  | .val l => itemsErrsList l

/-- All offending field names of a raw payload against the `Invoice`
schema of `schemas.py`, in field order. -/
def invoiceErrs (p : RawInvoice) : List String :=
  fieldErrs "customer_name" true (fun _ => true) p.customer_name
    ++ fieldErrs "customer_email" true emailValid p.customer_email
    ++ fieldErrs "customer_address" false (fun _ => true) p.customer_address
    ++ fieldErrs "invoice_number" false (fun _ => true) p.invoice_number
    ++ fieldErrs "issue_date" true (fun s => (parseDate s).isSome) p.issue_date
    ++ fieldErrs "due_date" false (fun s => (parseDate s).isSome) p.due_date
    ++ fieldErrs "currency" false (fun _ => true) p.currency
    ++ itemsErrs p.items
    ++ fieldErrs "notes" false (fun _ => true) p.notes
    ++ fieldErrs "status" false (fun _ => true) p.status
    ++ fieldErrs "subtotal" true (fun q => decide (0 ≤ q)) p.subtotal
    ++ fieldErrs "tax" false (fun q => decide (0 ≤ q)) p.tax
    ++ fieldErrs "discount" false (fun q => decide (0 ≤ q)) p.discount
    ++ fieldErrs "total" true (fun q => decide (0 ≤ q)) p.total

def buildItem (i : RawItem) : Option InvoiceItem := do
  let d ← optVal i.description
  let up ← optVal i.unit_price
  some ⟨d, fvGetD 1 i.quantity, up⟩

def buildItems : List RawItem → Option (List InvoiceItem)
  | [] => some []
  | i :: rest => do
      let a ← buildItem i
      let as ← buildItems rest
      some (a :: as)

/-- The optional-date fields: absent stays absent, a wrong-typed value
fails, a string must parse as a date. -/
def parseOptDate : FieldVal String → Option (Option CalDate)
  | .missing => some none
  | .invalid => none
  | .val s => (parseDate s).map some

/-- The `items` field value: defaulted to the empty list when absent. -/
def parseItems : FieldVal (List RawItem) → Option (List InvoiceItem)
  | .missing => some []
  | .invalid => none
  | .val l => buildItems l

/-- Construction of the parsed `Invoice` model from a raw payload, with
the `status` value passed separately (pydantic default `"unpaid"`). -/
def buildInvoiceWithStatus (p : RawInvoice) (st : String) : Option Invoice :=
  Option.bind (optVal p.customer_name) fun cn =>
  Option.bind (optVal p.customer_email) fun ce =>
  Option.bind (optVal p.issue_date) fun isdS =>
  Option.bind (parseDate isdS) fun isd =>
  Option.bind (parseOptDate p.due_date) fun dd =>
  Option.bind (parseItems p.items) fun its =>
  Option.bind (optVal p.subtotal) fun sub =>
  Option.bind (optVal p.total) fun tot =>
  some {
    customer_name := cn
    customer_email := ce
    customer_address := optVal p.customer_address
    invoice_number := optVal p.invoice_number
    issue_date := isd
    due_date := dd
    currency := fvGetD "USD" p.currency
    items := its
    notes := optVal p.notes
    status := st
    subtotal := sub
    tax := fvGetD 0 p.tax
    discount := fvGetD 0 p.discount
    total := tot
  }

def buildInvoice (p : RawInvoice) : Option Invoice :=
  buildInvoiceWithStatus p (fvGetD "unpaid" p.status)

/-- Pydantic-style validation of a creation payload against the
`Invoice` schema of `schemas.py`: collect the offending field names
across all fields; when there are none, construct the parsed model with
defaults applied.  On failure FastAPI surfaces the collected field
names as an HTTP 422 response. -/
def validateInvoice (p : RawInvoice) : Except (List String) Invoice :=
  if invoiceErrs p = [] then
    match buildInvoice p with
    | some inv => Except.ok inv
    | none => Except.error ["payload"]
  else Except.error (invoiceErrs p)

/-- The sum `Σ item.quantity * item.unit_price` of `create_invoice`
(line 88 of `main.py`). -/
def itemsSubtotal (items : List InvoiceItem) : ℚ :=
  (items.map (fun i => i.quantity * i.unit_price)).sum

/-- The server-side totals overwrite of `create_invoice` (lines 88-91 of
`main.py`): `data["subtotal"] = round(subtotal, 2)` and
`data["total"] = round(max(subtotal + tax - discount, 0), 2)`, where
`subtotal` is the raw, unrounded sum. -/
def computeStored (inv : Invoice) : Invoice :=
  let subtotal := itemsSubtotal inv.items
  let total := subtotal + inv.tax - inv.discount
  { inv with subtotal := round2 subtotal, total := round2 (max total 0) }

/-- The write-path store: the `invoice` collection as a list of
(identifier, document) pairs, most recent first. -/
abbrev Store : Type := List (String × Invoice)

/-- Modelled from the spec: the Document Store Gateway's insert
(`create_document` of `database.py`, which is not under `src/`) appends
the document to the named collection and returns a store-generated
unique identifier as a string (§4.1).  Identifiers are generated here as
strings of `n` marks for the `n`-th insert, standing in for
store-generated unique ids. -/
def create_document (store : Store) (doc : Invoice) : String × Store :=
  let id := String.mk (List.replicate (store.length + 1) 'x')
  (id, (id, doc) :: store)

/-- Outcome of POST /api/invoices.  `validationError` is FastAPI's HTTP
422 response carrying the offending field names; `created` carries the
response body `{id, share_url}`.  (The database-unavailable HTTP 500
branch of `create_invoice` is outside the scope of the claims: stores
here are always available.) -/
inductive CreateResult where
  | created (id : String) (share_url : String)
  | validationError (fields : List String)
deriving DecidableEq, Repr

/-- POST /api/invoices (`create_invoice`, lines 80-99 of `main.py`):
validate the payload, overwrite `subtotal`/`total` server-side, insert,
and answer with the new id and the share URL
`/public/invoices/{id}`. -/
def create_invoice (store : Store) (p : RawInvoice) : CreateResult × Store :=
  match validateInvoice p with
  | .error errs => (.validationError errs, store)
  | .ok inv =>
      let data := computeStored inv
      let (id, store') := create_document store data
      (.created id ("/public/invoices/" ++ id), store')

/-- A stored JSON-like value, as held in a document of the store.
`oid` is a BSON ObjectId (rendered by `str()` as its hex form) and
`date` a stored calendar date (which has `isoformat`). -/
inductive JVal where
  | null
  | jbool (b : Bool)
  | jstr (s : String)
  | jnum (q : ℚ)
  | jarr (xs : List JVal)
  | jobj (kvs : List (String × JVal))
  | oid (hex : String)
  | date (d : CalDate)

/-- A stored document: a Python dict as an association list (keys
unique, insertion order preserved). -/
abbrev Doc : Type := List (String × JVal)

/-- Python truthiness of a stored value (`if doc.get("_id")`). -/
def truthy : JVal → Bool
  | .null => false
  | .jbool b => b
  | .jstr s => !s.data.isEmpty
  | .jnum q => q != 0
  | .jarr xs => !xs.isEmpty
  | .jobj kvs => !kvs.isEmpty
  | .oid _ => true
  | .date _ => true

/-- Python `str()` of a stored value, as used on the popped `_id`
(ObjectIds render as their hex string; the other cases are canonical
renderings, unreached on store-generated ids). -/
def jvalStr : JVal → String
  | .null => "None"
  | .jbool b => if b then "True" else "False"
  | .jstr s => s
  | .jnum q => toString q
  | .jarr _ => "[...]"
  | .jobj _ => "{...}"
  | .oid hex => hex
  | .date d => toString d.year ++ "-" ++ toString d.month ++ "-" ++ toString d.day

/-- `doc.get(k)`: first value stored under key `k`, if any. -/
def dictGet (d : Doc) (k : String) : Option JVal :=
  match d with
  | [] => none
  | kv :: rest => if k == kv.1 then some kv.2 else dictGet rest k

/-- `doc.get(k, default)`. -/
def dictGetD (d : Doc) (k : String) (v : JVal) : JVal :=
  (dictGet d k).getD v

/-- `doc.pop(k)`'s effect on the dict: remove the entry for `k`. -/
def dictPop (d : Doc) (k : String) : Doc :=
  match d with
  | [] => []
  | kv :: rest => if k == kv.1 then rest else kv :: dictPop rest k

/-- `doc[k] = v`: replace the entry for `k` in place, or append it. -/
def dictSet (d : Doc) (k : String) (v : JVal) : Doc :=
  match d with
  | [] => [(k, v)]
  | kv :: rest => if k == kv.1 then (k, v) :: rest else kv :: dictSet rest k v

/-- `datetime.date.isoformat()`: zero-padded `YYYY-MM-DD`. -/
def isoDate (d : CalDate) : String :=
  let pad : Nat → Nat → String := fun w n =>
    let s := toString n
    String.mk (List.replicate (w - s.length) '0') ++ s
  pad 4 d.year ++ "-" ++ pad 2 d.month ++ "-" ++ pad 2 d.day

/-- The date-like keys converted by `serialize_invoice`. -/
def dateKeys : List String := ["issue_date", "due_date", "created_at", "updated_at"]

/-- One step of the date-conversion loop of `serialize_invoice`: if the
key is present and its value has `isoformat` (a stored date), replace it
by its ISO string. -/
def isoStep (d : Doc) (k : String) : Doc :=
  match dictGet d k with
  | some (.date dt) => dictSet d k (.jstr (isoDate dt))
  | _ => d

/-- The id step of `serialize_invoice`:
`doc["id"] = str(doc.pop("_id")) if doc.get("_id") else None` - the pop
happens only when `doc.get("_id")` is truthy. -/
def serializeIdStep (doc : Doc) : Doc :=
  if truthy (dictGetD doc "_id" JVal.null) then
    dictSet (dictPop doc "_id") "id" (.jstr (jvalStr (dictGetD doc "_id" JVal.null)))
  else dictSet doc "id" .null

/-- `serialize_invoice` of `main.py` (lines 32-40): empty docs pass
through; otherwise set `id` from `_id`, then convert the date-like keys
to ISO strings. -/
def serialize_invoice (doc : Doc) : Doc :=
  if doc.isEmpty then doc
  else dateKeys.foldl isoStep (serializeIdStep doc)

/-- The allowlisted keys of the public view, in the order
`public_invoice` emits them (lines 134-150 of `main.py`). -/
def publicKeys : List String :=
  ["id", "invoice_number", "customer_name", "customer_email",
   "customer_address", "issue_date", "due_date", "currency", "items",
   "notes", "status", "subtotal", "tax", "discount", "total"]

/-- The public-view projection built by `public_invoice` (lines 133-150
of `main.py`): serialize, then emit exactly the allowlisted keys via
`doc.get(...)`, with `items` defaulting to the empty list. -/
def public_view (doc : Doc) : Doc :=
  let s := serialize_invoice doc
  [("id", dictGetD s "id" .null),
   ("invoice_number", dictGetD s "invoice_number" .null),
   ("customer_name", dictGetD s "customer_name" .null),
   ("customer_email", dictGetD s "customer_email" .null),
   ("customer_address", dictGetD s "customer_address" .null),
   ("issue_date", dictGetD s "issue_date" .null),
   ("due_date", dictGetD s "due_date" .null),
   ("currency", dictGetD s "currency" .null),
   ("items", dictGetD s "items" (.jarr [])),
   ("notes", dictGetD s "notes" .null),
   ("status", dictGetD s "status" .null),
   ("subtotal", dictGetD s "subtotal" .null),
   ("tax", dictGetD s "tax" .null),
   ("discount", dictGetD s "discount" .null),
   ("total", dictGetD s "total" .null)]

/-- Whether a string is accepted by `bson.ObjectId(...)`: 24 hexadecimal
characters. -/
def objectIdValid (s : String) : Bool :=
  s.data.length == 24 && s.data.all (fun c =>
    c.isDigit || ('a' ≤ c && c ≤ 'f') || ('A' ≤ c && c ≤ 'F'))

/-- The read-path store: the `invoice` collection keyed by ObjectId hex
string. -/
abbrev RStore : Type := List (String × Doc)

/-- Modelled from the spec: `db["invoice"].find_one({"_id": oid})`
through the store handle of `database.py` (not under `src/`): fetch the
single document with the given identifier, or nothing (§4.1). -/
def find_one (store : RStore) (oidHex : String) : Option Doc :=
  match store with
  | [] => none
  | kv :: rest => if oidHex == kv.1 then some kv.2 else find_one rest oidHex

/-- Outcome of the single-invoice GET routes: `ok` is the HTTP 200 body,
`badRequest` the HTTP 400 of an invalid id, `notFound` the HTTP 404 of
an absent document. -/
inductive GetResult where
  | ok (body : Doc)
  | badRequest
  | notFound

/-- GET /api/invoices/{invoice_id} (`get_invoice`, lines 110-119 of
`main.py`): 400 when `ObjectId(invoice_id)` raises, 404 when no
document matches, else the serialized document. -/
def get_invoice (store : RStore) (invoice_id : String) : GetResult :=
  if objectIdValid invoice_id then
    match find_one store invoice_id with
    | some doc => .ok (serialize_invoice doc)
    | none => .notFound
  else .badRequest

/-- GET /public/invoices/{invoice_id} (`public_invoice`, lines 123-150
of `main.py`): identical id check and lookup, then the public-view
projection. -/
def public_invoice (store : RStore) (invoice_id : String) : GetResult :=
  if objectIdValid invoice_id then
    match find_one store invoice_id with
    | some doc => .ok (public_view doc)
    | none => .notFound
  else .badRequest

/-- A well-formed creation payload: the worked example of the spec
(`items [{description: "Widget", quantity: 2, unit_price: 9.99}]`,
`tax = 1.5`, `discount = 0`), with client-supplied `subtotal`/`total`
of `0` as the schema requires them to be present. -/
def samplePayload : RawInvoice :=
  { customer_name := .val "Ada"
    customer_email := .val "ada@example.com"
    customer_address := .missing
    invoice_number := .missing
    issue_date := .val "2024-01-15"
    due_date := .missing
    currency := .missing
    items := .val [⟨.val "Widget", .val 2, .val (mkRat 999 100)⟩]
    notes := .missing
    status := .missing
    subtotal := .val 0
    tax := .val (mkRat 3 2)
    discount := .missing
    total := .val 0 }

/-- The parsed model of `samplePayload`. -/
def sampleInvoice : Invoice :=
  { customer_name := "Ada"
    customer_email := "ada@example.com"
    customer_address := none
    invoice_number := none
    issue_date := ⟨2024, 1, 15⟩
    due_date := none
    currency := "USD"
    items := [⟨"Widget", 2, mkRat 999 100⟩]
    notes := none
    status := "unpaid"
    subtotal := 0
    tax := mkRat 3 2
    discount := 0
    total := 0 }

/-- A well-formed creation payload with one item of unit price `0.004`
and `tax = 0.002`: rounding its subtotal to cents loses `0.004`, which
the total computation of `main.py` does not. -/
def sliverPayload : RawInvoice :=
  { customer_name := .val "Bea"
    customer_email := .val "bea@example.com"
    customer_address := .missing
    invoice_number := .missing
    issue_date := .val "2024-02-01"
    due_date := .missing
    currency := .missing
    items := .val [⟨.val "Sliver", .val 1, .val (mkRat 1 250)⟩]
    notes := .missing
    status := .missing
    subtotal := .val 0
    tax := .val (mkRat 1 500)
    discount := .missing
    total := .val 0 }

/-- The parsed model of `sliverPayload`. -/
def sliverInvoice : Invoice :=
  { customer_name := "Bea"
    customer_email := "bea@example.com"
    customer_address := none
    invoice_number := none
    issue_date := ⟨2024, 2, 1⟩
    due_date := none
    currency := "USD"
    items := [⟨"Sliver", 1, mkRat 1 250⟩]
    notes := none
    status := "unpaid"
    subtotal := 0
    tax := mkRat 1 500
    discount := 0
    total := 0 }

/-- The clamping example of the spec: empty `items`, `tax = 0`,
`discount = 5` (with the required client `subtotal`/`total` of `0`). -/
def clampPayload : RawInvoice :=
  { customer_name := .val "Cal"
    customer_email := .val "cal@example.com"
    customer_address := .missing
    invoice_number := .missing
    issue_date := .val "2024-03-01"
    due_date := .missing
    currency := .missing
    items := .val []
    notes := .missing
    status := .missing
    subtotal := .val 0
    tax := .val 0
    discount := .val 5
    total := .val 0 }

/-- The parsed model of `clampPayload`. -/
def clampInvoice : Invoice :=
  { customer_name := "Cal"
    customer_email := "cal@example.com"
    customer_address := none
    invoice_number := none
    issue_date := ⟨2024, 3, 1⟩
    due_date := none
    currency := "USD"
    items := []
    notes := none
    status := "unpaid"
    subtotal := 0
    tax := 0
    discount := 5
    total := 0 }

/-- A well-formed 24-hex-character store identifier. -/
def oid24 : String := "0123456789abcdef01234567"

/-- A stored document carrying a field outside the public allowlist. -/
def secretDoc : Doc :=
  [("_id", JVal.oid oid24), ("customer_name", JVal.jstr "Ada"),
   ("internal_cost", JVal.jstr "hidden")]

/-- A stored document lacking most fields (no `_id`, no `notes`, no
`items`). -/
def sparseDoc : Doc := [("customer_name", JVal.jstr "Ada")]

def secretStore : RStore := [(oid24, secretDoc)]

def sparseStore : RStore := [(oid24, sparseDoc)]

/-- `samplePayload` with the `subtotal` and `total` fields omitted:
every other §3 constraint holds. -/
def omitTotalsPayload : RawInvoice :=
  { samplePayload with subtotal := FieldVal.missing, total := FieldVal.missing }

/-- `samplePayload` with a negative `tax`. -/
def negTaxPayload : RawInvoice :=
  { samplePayload with tax := FieldVal.val (mkRat (-1) 1) }

/-- Some field of the payload carries a value of the wrong type
(pydantic rejects it as unparseable for the declared field type). -/
def WrongTyped (p : RawInvoice) : Prop :=
  p.customer_name = FieldVal.invalid ∨ p.customer_email = FieldVal.invalid
    ∨ p.customer_address = FieldVal.invalid ∨ p.invoice_number = FieldVal.invalid
    ∨ p.issue_date = FieldVal.invalid ∨ p.due_date = FieldVal.invalid
    ∨ p.currency = FieldVal.invalid ∨ p.items = FieldVal.invalid
    ∨ p.notes = FieldVal.invalid ∨ p.status = FieldVal.invalid
    ∨ p.subtotal = FieldVal.invalid ∨ p.tax = FieldVal.invalid
    ∨ p.discount = FieldVal.invalid ∨ p.total = FieldVal.invalid
    ∨ (∃ l i, p.items = FieldVal.val l ∧ i ∈ l
        ∧ (i.description = FieldVal.invalid ∨ i.quantity = FieldVal.invalid
            ∨ i.unit_price = FieldVal.invalid))

/-- The §3 field-constraint violations enumerated by the spec: a missing
required field (`customer_name`, `customer_email`, `issue_date`, or a
required item field), a wrong type, a negative `quantity`, `unit_price`,
`tax`, `discount`, `subtotal` or `total`, a malformed email, or a
malformed date. -/
def ViolatesConstraint (p : RawInvoice) : Prop :=
  p.customer_name = FieldVal.missing ∨ p.customer_email = FieldVal.missing
    ∨ p.issue_date = FieldVal.missing
    ∨ (∃ l i, p.items = FieldVal.val l ∧ i ∈ l
        ∧ (i.description = FieldVal.missing ∨ i.unit_price = FieldVal.missing))
    ∨ WrongTyped p
    ∨ (∃ l i q, p.items = FieldVal.val l ∧ i ∈ l
        ∧ (i.quantity = FieldVal.val q ∨ i.unit_price = FieldVal.val q) ∧ q < 0)
    ∨ (∃ q, (p.tax = FieldVal.val q ∨ p.discount = FieldVal.val q
        ∨ p.subtotal = FieldVal.val q ∨ p.total = FieldVal.val q) ∧ q < 0)
    ∨ (∃ e, p.customer_email = FieldVal.val e ∧ emailValid e = false)
    ∨ (∃ d, (p.issue_date = FieldVal.val d ∨ p.due_date = FieldVal.val d)
        ∧ parseDate d = none)

section RoundingLemmas

lemma roundHalfEven_ge (q : ℚ) : q - 1/2 ≤ (roundHalfEven q : ℚ) := by
  have hlt : q < (⌊q⌋ : ℚ) + 1 := Int.lt_floor_add_one q
  have hle : ((⌊q⌋ : ℚ)) ≤ q := Int.floor_le q
  simp only [roundHalfEven]
  split_ifs with h1 h2 h3 <;> first | linarith | (push_cast; linarith)

lemma roundHalfEven_nonneg (q : ℚ) (h : 0 ≤ q) : 0 ≤ roundHalfEven q := by
  have hf : 0 ≤ ⌊q⌋ := Int.floor_nonneg.mpr h
  simp only [roundHalfEven]
  split_ifs <;> omega

lemma round2_nonneg (q : ℚ) (h : 0 ≤ q) : 0 ≤ round2 q := by
  have hr := roundHalfEven_nonneg (q * 100) (by positivity)
  rw [round2]
  positivity

lemma round2_ge (q : ℚ) : q - 1/200 ≤ round2 q := by
  have h := roundHalfEven_ge (q * 100)
  rw [round2]
  linarith

lemma roundHalfEven_of_floor_lt (q : ℚ) (n : ℤ) (hf : ⌊q⌋ = n)
    (h : q - (n : ℚ) < 1/2) : roundHalfEven q = n := by
  simp only [roundHalfEven, hf]
  rw [if_pos h]

lemma roundHalfEven_of_floor_gt (q : ℚ) (n : ℤ) (hf : ⌊q⌋ = n)
    (h : 1/2 < q - (n : ℚ)) : roundHalfEven q = n + 1 := by
  simp only [roundHalfEven, hf]
  rw [if_neg (by linarith), if_pos h]

lemma roundHalfEven_of_tie_even (q : ℚ) (n : ℤ) (hf : ⌊q⌋ = n)
    (h : q - (n : ℚ) = 1/2) (he : n % 2 = 0) : roundHalfEven q = n := by
  simp only [roundHalfEven, hf]
  rw [if_neg (by linarith), if_neg (by linarith), if_pos he]

lemma round2_eq_down (q : ℚ) (n : ℤ) (hf : ⌊q * 100⌋ = n)
    (h : q * 100 - (n : ℚ) < 1/2) : round2 q = (n : ℚ) / 100 := by
  rw [round2, roundHalfEven_of_floor_lt (q * 100) n hf h]

lemma round2_eq_up (q : ℚ) (n : ℤ) (hf : ⌊q * 100⌋ = n)
    (h : 1/2 < q * 100 - (n : ℚ)) : round2 q = ((n : ℚ) + 1) / 100 := by
  rw [round2, roundHalfEven_of_floor_gt (q * 100) n hf h]
  norm_cast

lemma round2_eq_zero_of_small (q : ℚ) (h0 : 0 ≤ q) (h1 : q ≤ 1/200) :
    round2 q = 0 := by
  have hf : ⌊q * 100⌋ = 0 := by
    rw [Int.floor_eq_zero_iff]
    exact Set.mem_Ico.mpr ⟨by linarith, by linarith⟩
  rcases lt_or_eq_of_le (show q * 100 ≤ 1/2 by linarith) with hlt | heq
  · rw [round2_eq_down q 0 hf (by push_cast; linarith)]
    norm_num
  · rw [round2, roundHalfEven_of_tie_even (q * 100) 0 hf (by push_cast; linarith) (by decide)]
    norm_num

end RoundingLemmas

section PayloadFacts

lemma samplePayload_validates :
    validateInvoice samplePayload = Except.ok sampleInvoice := rfl

lemma sliverPayload_validates :
    validateInvoice sliverPayload = Except.ok sliverInvoice := rfl

lemma clampPayload_validates :
    validateInvoice clampPayload = Except.ok clampInvoice := rfl

lemma sample_itemsSubtotal : itemsSubtotal sampleInvoice.items = 999/50 := by
  norm_num [itemsSubtotal, sampleInvoice, Rat.mkRat_eq_div]

lemma sample_subtotal : (computeStored sampleInvoice).subtotal = (19.98 : ℚ) := by
  show round2 (itemsSubtotal sampleInvoice.items) = (19.98 : ℚ)
  rw [sample_itemsSubtotal, round2_eq_down (999/50) 1998 (by norm_num) (by norm_num)]
  norm_num

lemma sample_total : (computeStored sampleInvoice).total = (21.48 : ℚ) := by
  show round2 (max (itemsSubtotal sampleInvoice.items + sampleInvoice.tax
      - sampleInvoice.discount) 0) = (21.48 : ℚ)
  rw [sample_itemsSubtotal]
  have h2 : (999 : ℚ)/50 + sampleInvoice.tax - sampleInvoice.discount = 537/25 := by
    norm_num [sampleInvoice, Rat.mkRat_eq_div]
  rw [h2, max_eq_left (by norm_num : (0 : ℚ) ≤ 537/25),
    round2_eq_down (537/25) 2148 (by norm_num) (by norm_num)]
  norm_num

lemma sliver_subtotal : (computeStored sliverInvoice).subtotal = 0 := by
  show round2 (itemsSubtotal sliverInvoice.items) = 0
  have h1 : itemsSubtotal sliverInvoice.items = 1/250 := by
    norm_num [itemsSubtotal, sliverInvoice, Rat.mkRat_eq_div]
  rw [h1, round2_eq_down (1/250) 0 (by norm_num) (by norm_num)]
  norm_num

lemma sliver_total : (computeStored sliverInvoice).total = 1/100 := by
  show round2 (max (itemsSubtotal sliverInvoice.items + sliverInvoice.tax
      - sliverInvoice.discount) 0) = 1/100
  have h1 : itemsSubtotal sliverInvoice.items + sliverInvoice.tax
      - sliverInvoice.discount = 3/500 := by
    norm_num [itemsSubtotal, sliverInvoice, Rat.mkRat_eq_div]
  rw [h1, max_eq_left (by norm_num : (0 : ℚ) ≤ 3/500),
    round2_eq_up (3/500) 0 (by norm_num) (by norm_num)]
  norm_num

lemma clamp_subtotal : (computeStored clampInvoice).subtotal = 0 := by
  show round2 (itemsSubtotal clampInvoice.items) = 0
  have h1 : itemsSubtotal clampInvoice.items = 0 := by
    norm_num [itemsSubtotal, clampInvoice]
  rw [h1]
  exact round2_eq_zero_of_small 0 le_rfl (by norm_num)

lemma clamp_total : (computeStored clampInvoice).total = 0 := by
  show round2 (max (itemsSubtotal clampInvoice.items + clampInvoice.tax
      - clampInvoice.discount) 0) = 0
  have h1 : itemsSubtotal clampInvoice.items + clampInvoice.tax
      - clampInvoice.discount = -5 := by
    norm_num [itemsSubtotal, clampInvoice]
  rw [h1, max_eq_right (by norm_num : (-5 : ℚ) ≤ 0)]
  exact round2_eq_zero_of_small 0 le_rfl (by norm_num)

end PayloadFacts

/-- C1: for every creation payload accepted by POST /api/invoices, the
stored invoice's subtotal equals `round(Σ item.quantity * item.unit_price, 2)`
over all items, regardless of any `subtotal` (or `total`) value the
client supplied: the stored document is `computeStored inv`, whose
subtotal is that rounded sum and which is unchanged under any
client-supplied `subtotal`/`total`. -/
theorem subtotal_is_rounded_item_sum (store : Store) (p : RawInvoice)
    (inv : Invoice) (q t : ℚ) (h : validateInvoice p = Except.ok inv) :
    ∃ id u, create_invoice store p = (.created id u, (id, computeStored inv) :: store)
      ∧ (computeStored inv).subtotal = round2 (itemsSubtotal inv.items)
      ∧ computeStored { inv with subtotal := q, total := t } = computeStored inv := by
  refine ⟨String.mk (List.replicate (store.length + 1) 'x'), "/public/invoices/" ++ String.mk (List.replicate (store.length + 1) 'x'), ?_, rfl, rfl⟩
  simp [create_invoice, h, create_document]

theorem subtotal_is_rounded_item_sum_witness :
    ∃ id u, create_invoice [] samplePayload
        = (.created id u, [(id, computeStored sampleInvoice)])
      ∧ (computeStored sampleInvoice).subtotal = round2 (itemsSubtotal sampleInvoice.items)
      ∧ computeStored { sampleInvoice with subtotal := 5, total := 7 } = computeStored sampleInvoice :=
  subtotal_is_rounded_item_sum [] samplePayload sampleInvoice 5 7 samplePayload_validates

/-- C2, amended: for every accepted creation payload the stored total is
`round(max(S + tax - discount, 0), 2)` where `S` is the raw, unrounded
item sum - not the stored two-decimal subtotal (line 90 of `main.py`
reuses the unrounded `subtotal` variable).  The stored document is
unchanged under any client-supplied `total`. -/
theorem total_from_unrounded_sum (store : Store) (p : RawInvoice)
    (inv : Invoice) (t : ℚ) (h : validateInvoice p = Except.ok inv) :
    ∃ id u, create_invoice store p = (.created id u, (id, computeStored inv) :: store)
      ∧ (computeStored inv).total
          = round2 (max (itemsSubtotal inv.items + inv.tax - inv.discount) 0)
      ∧ computeStored { inv with total := t } = computeStored inv := by
  refine ⟨String.mk (List.replicate (store.length + 1) 'x'), "/public/invoices/" ++ String.mk (List.replicate (store.length + 1) 'x'), ?_, rfl, rfl⟩
  simp [create_invoice, h, create_document]

theorem total_from_unrounded_sum_witness :
    ∃ id u, create_invoice [] samplePayload
        = (.created id u, [(id, computeStored sampleInvoice)])
      ∧ (computeStored sampleInvoice).total
          = round2 (max (itemsSubtotal sampleInvoice.items + sampleInvoice.tax - sampleInvoice.discount) 0)
      ∧ computeStored { sampleInvoice with total := 7 } = computeStored sampleInvoice :=
  total_from_unrounded_sum [] samplePayload sampleInvoice 7 samplePayload_validates

/-- C2, counterexample to the claim as stated: for the accepted payload
`sliverPayload` (one item of `0.004`, `tax = 0.002`, `discount = 0`) the
stored invoice has subtotal `0.00` and total `0.01`, but
`round(max(stored_subtotal + tax - discount, 0), 2) = round(0.002, 2) = 0`:
the stored total is not computed from the stored (rounded) subtotal. -/
theorem total_not_from_stored_subtotal :
    ∃ id u doc, create_invoice [] sliverPayload = (.created id u, [(id, doc)])
      ∧ doc.total ≠ round2 (max (doc.subtotal + doc.tax - doc.discount) 0) := by
  refine ⟨String.mk (List.replicate 1 'x'), "/public/invoices/" ++ String.mk (List.replicate 1 'x'), computeStored sliverInvoice, ?_, ?_⟩
  · simp [create_invoice, sliverPayload_validates, create_document]
  · rw [sliver_total, sliver_subtotal]
    have htax : (computeStored sliverInvoice).tax = mkRat 1 500 := rfl
    have hdisc : (computeStored sliverInvoice).discount = 0 := rfl
    rw [htax, hdisc]
    have h1 : (0 : ℚ) + mkRat 1 500 - 0 = 1/500 := by
      norm_num [Rat.mkRat_eq_div]
    rw [h1, max_eq_left (by norm_num : (0 : ℚ) ≤ 1/500),
      round2_eq_down (1/500) 0 (by norm_num) (by norm_num)]
    norm_num

/-- C3: the stored total of every accepted creation payload is
nonnegative, and whenever the client's discount exceeds the stored
(rounded) subtotal plus tax the stored total is exactly 0; moreover the
spec's example - empty items, tax 0, discount 5 - stores subtotal 0 and
total 0 (clamped, not -5). -/
theorem total_never_negative :
    (∀ (store : Store) (p : RawInvoice) (inv : Invoice),
      validateInvoice p = Except.ok inv →
      ∃ id u, create_invoice store p = (.created id u, (id, computeStored inv) :: store)
        ∧ 0 ≤ (computeStored inv).total
        ∧ ((computeStored inv).subtotal + inv.tax < inv.discount →
            (computeStored inv).total = 0))
    ∧ (∃ id u doc, create_invoice [] clampPayload = (.created id u, [(id, doc)])
        ∧ doc.subtotal = 0 ∧ doc.total = 0) := by
  constructor
  · intro store p inv h
    refine ⟨String.mk (List.replicate (store.length + 1) 'x'), "/public/invoices/" ++ String.mk (List.replicate (store.length + 1) 'x'), ?_, ?_, ?_⟩
    · simp [create_invoice, h, create_document]
    · exact round2_nonneg _ (le_max_right _ _)
    · intro hd
      have hsub : (computeStored inv).subtotal = round2 (itemsSubtotal inv.items) := rfl
      rw [hsub] at hd
      have hge := round2_ge (itemsSubtotal inv.items)
      exact round2_eq_zero_of_small _ (le_max_right _ _) (max_le (by linarith) (by norm_num))
  · exact ⟨String.mk (List.replicate 1 'x'), "/public/invoices/" ++ String.mk (List.replicate 1 'x'), computeStored clampInvoice,
      by simp [create_invoice, clampPayload_validates, create_document],
      clamp_subtotal, clamp_total⟩

theorem total_never_negative_witness :
    ∃ id u, create_invoice [] clampPayload
        = (.created id u, [(id, computeStored clampInvoice)])
      ∧ 0 ≤ (computeStored clampInvoice).total
      ∧ ((computeStored clampInvoice).subtotal + clampInvoice.tax < clampInvoice.discount →
          (computeStored clampInvoice).total = 0) :=
  total_never_negative.1 [] clampPayload clampInvoice clampPayload_validates

/-- C8: the worked example - one item `{description: "Widget",
quantity: 2, unit_price: 9.99}`, `tax = 1.5`, `discount = 0` - stores
subtotal exactly `19.98` and total exactly `21.48`. -/
theorem widget_example_totals :
    ∃ id u doc, create_invoice [] samplePayload = (.created id u, [(id, doc)])
      ∧ doc.subtotal = (19.98 : ℚ) ∧ doc.total = (21.48 : ℚ) :=
  ⟨String.mk (List.replicate 1 'x'), "/public/invoices/" ++ String.mk (List.replicate 1 'x'), computeStored sampleInvoice,
    by simp [create_invoice, samplePayload_validates, create_document],
    sample_subtotal, sample_total⟩

section ValidationLemmas

lemma validate_ok_errs {p : RawInvoice} {inv : Invoice}
    (h : validateInvoice p = Except.ok inv) : invoiceErrs p = [] := by
  by_contra hne
  unfold validateInvoice at h
  rw [if_neg hne] at h
  exact Except.noConfusion h

lemma validate_ok_build {p : RawInvoice} {inv : Invoice}
    (h : validateInvoice p = Except.ok inv) : buildInvoice p = some inv := by
  have he := validate_ok_errs h
  unfold validateInvoice at h
  rw [if_pos he] at h
  cases hb : buildInvoice p with
  | none => rw [hb] at h; exact Except.noConfusion h
  | some i => rw [hb] at h; cases h; rfl

lemma fieldErrs_req_val {α : Type} {name : String} {check : α → Bool}
    {f : FieldVal α} (h : fieldErrs name true check f = []) :
    ∃ a, f = FieldVal.val a ∧ check a = true := by
  cases f with
  | missing => simp [fieldErrs] at h
  | invalid => simp [fieldErrs] at h
  | val a =>
      refine ⟨a, rfl, ?_⟩
      cases hc : check a with
      | true => rfl
      | false => simp [fieldErrs, hc] at h

lemma itemErrs_nil_iff (i : RawItem) : itemErrs i = [] ↔
    (fieldErrs "description" true (fun _ => true) i.description = []
      ∧ fieldErrs "quantity" false (fun q => decide (0 ≤ q)) i.quantity = []
      ∧ fieldErrs "unit_price" true (fun q => decide (0 ≤ q)) i.unit_price = []) := by
  simp only [itemErrs, List.append_eq_nil]
  tauto

lemma itemsErrsList_nil_of_mem {l : List RawItem} (h : itemsErrsList l = [])
    {i : RawItem} (hi : i ∈ l) : itemErrs i = [] := by
  induction l with
  | nil => cases hi
  | cons a rest ih =>
      simp only [itemsErrsList, List.append_eq_nil] at h
      cases hi with
      | head => exact h.1
      | tail _ hmem => exact ih h.2 hmem

lemma invoiceErrs_nil_iff (p : RawInvoice) : invoiceErrs p = [] ↔
    (fieldErrs "customer_name" true (fun _ => true) p.customer_name = []
      ∧ fieldErrs "customer_email" true emailValid p.customer_email = []
      ∧ fieldErrs "customer_address" false (fun _ => true) p.customer_address = []
      ∧ fieldErrs "invoice_number" false (fun _ => true) p.invoice_number = []
      ∧ fieldErrs "issue_date" true (fun s => (parseDate s).isSome) p.issue_date = []
      ∧ fieldErrs "due_date" false (fun s => (parseDate s).isSome) p.due_date = []
      ∧ fieldErrs "currency" false (fun _ => true) p.currency = []
      ∧ itemsErrs p.items = []
      ∧ fieldErrs "notes" false (fun _ => true) p.notes = []
      ∧ fieldErrs "status" false (fun _ => true) p.status = []
      ∧ fieldErrs "subtotal" true (fun q => decide (0 ≤ q)) p.subtotal = []
      ∧ fieldErrs "tax" false (fun q => decide (0 ≤ q)) p.tax = []
      ∧ fieldErrs "discount" false (fun q => decide (0 ≤ q)) p.discount = []
      ∧ fieldErrs "total" true (fun q => decide (0 ≤ q)) p.total = []) := by
  simp only [invoiceErrs, List.append_eq_nil]
  tauto

lemma buildInvoiceWithStatus_shift {p : RawInvoice} {st : String} {inv : Invoice}
    (h : buildInvoiceWithStatus p st = some inv) (st' : String) :
    buildInvoiceWithStatus p st' = some { inv with status := st' }
      ∧ inv.status = st := by
  simp only [buildInvoiceWithStatus, Option.bind_eq_some, Option.some.injEq] at h
  obtain ⟨cn, hcn, ce, hce, isdS, hisdS, isd, hisd, dd, hdd, its, hits, sub, hsub,
    tot, htot, hinv⟩ := h
  subst hinv
  refine ⟨?_, rfl⟩
  rw [buildInvoiceWithStatus, hcn, Option.some_bind, hce, Option.some_bind, hisdS,
    Option.some_bind, hisd, Option.some_bind, hdd, Option.some_bind, hits,
    Option.some_bind, hsub, Option.some_bind, htot, Option.some_bind]

end ValidationLemmas

/-- C6, counterexample to the claim as stated: `omitTotalsPayload`
satisfies every §3 constraint except that it omits `subtotal` and
`total`; `schemas.py` declares both with `Field(..., ge=0)` (required),
so POST /api/invoices rejects it with a validation error naming the two
fields, and nothing is inserted. -/
theorem omitting_subtotal_total_rejected :
    create_invoice [] omitTotalsPayload
      = (.validationError ["subtotal", "total"], []) := rfl

/-- C6, amended: a creation payload accepted by POST /api/invoices must
carry client-supplied `subtotal` and `total` values, each only required
to be nonnegative, and both are overwritten by the server-computed
values before the document is stored. -/
theorem subtotal_total_required_but_overwritten (store : Store) (p : RawInvoice)
    (inv : Invoice) (h : validateInvoice p = Except.ok inv) :
    (∃ sv, p.subtotal = FieldVal.val sv ∧ 0 ≤ sv)
    ∧ (∃ tv, p.total = FieldVal.val tv ∧ 0 ≤ tv)
    ∧ ∃ id u, create_invoice store p = (.created id u, (id, computeStored inv) :: store)
      ∧ (computeStored inv).subtotal = round2 (itemsSubtotal inv.items)
      ∧ (computeStored inv).total
          = round2 (max (itemsSubtotal inv.items + inv.tax - inv.discount) 0) := by
  have he := validate_ok_errs h
  obtain ⟨-, -, -, -, -, -, -, -, -, -, hsub, -, -, htot⟩ := (invoiceErrs_nil_iff p).mp he
  obtain ⟨sv, hsv, hsvc⟩ := fieldErrs_req_val hsub
  obtain ⟨tv, htv, htvc⟩ := fieldErrs_req_val htot
  refine ⟨⟨sv, hsv, of_decide_eq_true hsvc⟩, ⟨tv, htv, of_decide_eq_true htvc⟩,
    String.mk (List.replicate (store.length + 1) 'x'),
    "/public/invoices/" ++ String.mk (List.replicate (store.length + 1) 'x'),
    ?_, rfl, rfl⟩
  simp [create_invoice, h, create_document]

theorem subtotal_total_required_but_overwritten_witness :
    (∃ sv, samplePayload.subtotal = FieldVal.val sv ∧ 0 ≤ sv)
    ∧ (∃ tv, samplePayload.total = FieldVal.val tv ∧ 0 ≤ tv)
    ∧ ∃ id u, create_invoice [] samplePayload
        = (.created id u, [(id, computeStored sampleInvoice)])
      ∧ (computeStored sampleInvoice).subtotal = round2 (itemsSubtotal sampleInvoice.items)
      ∧ (computeStored sampleInvoice).total
          = round2 (max (itemsSubtotal sampleInvoice.items + sampleInvoice.tax
              - sampleInvoice.discount) 0) :=
  subtotal_total_required_but_overwritten [] samplePayload sampleInvoice
    samplePayload_validates

/-- C7: every creation payload violating one of the §3 field constraints
(a missing required field, a wrong type, a negative numeric field, a
malformed email, or a malformed date) is rejected by POST /api/invoices
with a validation error carrying the offending field names, and the
store is left unchanged: no document is inserted. -/
theorem constraint_violation_rejected_no_insert (store : Store) (p : RawInvoice)
    (hv : ViolatesConstraint p) :
    invoiceErrs p ≠ []
    ∧ create_invoice store p = (.validationError (invoiceErrs p), store) := by
  have hne : invoiceErrs p ≠ [] := by
    intro hnil
    obtain ⟨h1, h2, h3, h4, h5, h6, h7, h8, h9, h10, h11, h12, h13, h14⟩ :=
      (invoiceErrs_nil_iff p).mp hnil
    rcases hv with hm | hm | hm | ⟨l, i, hl, hi, hmi⟩ | hw
      | ⟨l, i, q, hl, hi, hqi, hq⟩ | ⟨q, hq, hlt⟩ | ⟨e, hee, hev⟩ | ⟨d, hd, hpd⟩
    · rw [hm] at h1; simp [fieldErrs] at h1
    · rw [hm] at h2; simp [fieldErrs] at h2
    · rw [hm] at h5; simp [fieldErrs] at h5
    · rw [hl] at h8
      have hin := itemsErrsList_nil_of_mem h8 hi
      obtain ⟨hid, hiq, hiu⟩ := (itemErrs_nil_iff i).mp hin
      rcases hmi with hx | hx
      · rw [hx] at hid; simp [fieldErrs] at hid
      · rw [hx] at hiu; simp [fieldErrs] at hiu
    · rcases hw with hw | hw | hw | hw | hw | hw | hw | hw | hw | hw | hw | hw | hw | hw
        | ⟨l, i, hl, hi, hwi⟩
      · rw [hw] at h1; simp [fieldErrs] at h1
      · rw [hw] at h2; simp [fieldErrs] at h2
      · rw [hw] at h3; simp [fieldErrs] at h3
      · rw [hw] at h4; simp [fieldErrs] at h4
      · rw [hw] at h5; simp [fieldErrs] at h5
      · rw [hw] at h6; simp [fieldErrs] at h6
      · rw [hw] at h7; simp [fieldErrs] at h7
      · rw [hw] at h8; simp [itemsErrs] at h8
      · rw [hw] at h9; simp [fieldErrs] at h9
      · rw [hw] at h10; simp [fieldErrs] at h10
      · rw [hw] at h11; simp [fieldErrs] at h11
      · rw [hw] at h12; simp [fieldErrs] at h12
      · rw [hw] at h13; simp [fieldErrs] at h13
      · rw [hw] at h14; simp [fieldErrs] at h14
      · rw [hl] at h8
        have hin := itemsErrsList_nil_of_mem h8 hi
        obtain ⟨hid, hiq, hiu⟩ := (itemErrs_nil_iff i).mp hin
        rcases hwi with hx | hx | hx
        · rw [hx] at hid; simp [fieldErrs] at hid
        · rw [hx] at hiq; simp [fieldErrs] at hiq
        · rw [hx] at hiu; simp [fieldErrs] at hiu
    · rw [hl] at h8
      have hin := itemsErrsList_nil_of_mem h8 hi
      obtain ⟨hid, hiq, hiu⟩ := (itemErrs_nil_iff i).mp hin
      have hdec : decide (0 ≤ q) = false := decide_eq_false (not_le.mpr hq)
      rcases hqi with hx | hx
      · rw [hx] at hiq; simp [fieldErrs, hdec] at hiq
      · rw [hx] at hiu; simp [fieldErrs, hdec] at hiu
    · have hdec : decide (0 ≤ q) = false := decide_eq_false (not_le.mpr hlt)
      rcases hq with hx | hx | hx | hx
      · rw [hx] at h12; simp [fieldErrs, hdec] at h12
      · rw [hx] at h13; simp [fieldErrs, hdec] at h13
      · rw [hx] at h11; simp [fieldErrs, hdec] at h11
      · rw [hx] at h14; simp [fieldErrs, hdec] at h14
    · rw [hee] at h2; simp [fieldErrs, hev] at h2
    · rcases hd with hx | hx
      · rw [hx] at h5; simp [fieldErrs, hpd] at h5
      · rw [hx] at h6; simp [fieldErrs, hpd] at h6
  refine ⟨hne, ?_⟩
  unfold create_invoice validateInvoice
  rw [if_neg hne]

theorem constraint_violation_rejected_no_insert_witness :
    invoiceErrs negTaxPayload ≠ []
    ∧ create_invoice [] negTaxPayload
        = (.validationError (invoiceErrs negTaxPayload), []) :=
  constraint_violation_rejected_no_insert [] negTaxPayload
    (Or.inr (Or.inr (Or.inr (Or.inr (Or.inr (Or.inr (Or.inl
      ⟨mkRat (-1) 1, Or.inl rfl, by norm_num [Rat.mkRat_eq_div]⟩)))))))

/-- C9: the `status` field is not validated against the documented
enumeration: if a payload with `status` omitted is accepted, then the
same payload with `status` set to any string whatsoever is accepted,
with that string stored unchanged; an omitted `status` defaults to
`"unpaid"`; and the totals overwrite leaves `status` untouched. -/
theorem status_accepts_any_string (p : RawInvoice) (s : String) (inv : Invoice)
    (h : validateInvoice { p with status := FieldVal.missing } = Except.ok inv) :
    validateInvoice { p with status := FieldVal.val s }
        = Except.ok { inv with status := s }
    ∧ inv.status = "unpaid"
    ∧ (computeStored { inv with status := s }).status = s := by
  have hb : buildInvoiceWithStatus { p with status := FieldVal.missing } "unpaid"
      = some inv := validate_ok_build h
  obtain ⟨hshift, hst⟩ := buildInvoiceWithStatus_shift hb s
  have he := validate_ok_errs h
  rw [invoiceErrs_nil_iff] at he
  obtain ⟨a1, a2, a3, a4, a5, a6, a7, a8, a9, -, a11, a12, a13, a14⟩ := he
  have he2 : invoiceErrs { p with status := FieldVal.val s } = [] :=
    (invoiceErrs_nil_iff _).mpr
      ⟨a1, a2, a3, a4, a5, a6, a7, a8, a9, rfl, a11, a12, a13, a14⟩
  have hbuild2 : buildInvoice { p with status := FieldVal.val s }
      = some { inv with status := s } := hshift
  refine ⟨?_, hst, rfl⟩
  unfold validateInvoice
  rw [if_pos he2, hbuild2]

theorem status_accepts_any_string_witness :
    validateInvoice { samplePayload with status := FieldVal.val "weird" }
        = Except.ok { sampleInvoice with status := "weird" }
    ∧ sampleInvoice.status = "unpaid"
    ∧ (computeStored { sampleInvoice with status := "weird" }).status = "weird" :=
  status_accepts_any_string samplePayload "weird" sampleInvoice samplePayload_validates

section DictLemmas

lemma dictGet_dictSet_self (d : Doc) (k : String) (v : JVal) :
    dictGet (dictSet d k v) k = some v := by
  induction d with
  | nil => simp [dictSet, dictGet]
  | cons kv rest ih =>
      obtain ⟨k1, v1⟩ := kv
      by_cases hk : k = k1
      · subst hk
        simp [dictSet, dictGet]
      · simp [dictSet, dictGet, beq_iff_eq, hk, ih]

lemma dictGet_dictSet_ne (d : Doc) (k k2 : String) (v : JVal) (h : k ≠ k2) :
    dictGet (dictSet d k2 v) k = dictGet d k := by
  induction d with
  | nil => simp [dictSet, dictGet, beq_iff_eq, h]
  | cons kv rest ih =>
      obtain ⟨k1, v1⟩ := kv
      by_cases hk : k2 = k1
      · subst hk
        simp [dictSet, dictGet, beq_iff_eq, h]
      · by_cases hkk : k = k1 <;> simp [dictSet, dictGet, beq_iff_eq, hk, hkk, ih]

lemma dictGet_dictPop_ne (d : Doc) (k k2 : String) (h : k ≠ k2) :
    dictGet (dictPop d k2) k = dictGet d k := by
  induction d with
  | nil => simp [dictPop, dictGet]
  | cons kv rest ih =>
      obtain ⟨k1, v1⟩ := kv
      by_cases hk : k2 = k1
      · subst hk
        simp [dictPop, dictGet, beq_iff_eq, h]
      · by_cases hkk : k = k1 <;> simp [dictPop, dictGet, beq_iff_eq, hk, hkk, ih]

lemma dictGet_isoStep_ne (d : Doc) (kd k : String) (h : k ≠ kd) :
    dictGet (isoStep d kd) k = dictGet d k := by
  cases hg : dictGet d kd with
  | none => simp [isoStep, hg]
  | some v =>
      cases v <;> simp only [isoStep, hg] <;>
        first
          | rfl
          | exact dictGet_dictSet_ne d k kd _ h

lemma dictGet_isoStep_none (d : Doc) (kd k : String) (h : dictGet d k = none) :
    dictGet (isoStep d kd) k = none := by
  by_cases hk : k = kd
  · subst hk
    simp [isoStep, h]
  · rw [dictGet_isoStep_ne d kd k hk]
    exact h

lemma serializeIdStep_get_none (doc : Doc) (k : String)
    (h1 : k ≠ "id") (h2 : k ≠ "_id") (h : dictGet doc k = none) :
    dictGet (serializeIdStep doc) k = none := by
  unfold serializeIdStep
  split_ifs with htr
  · rw [dictGet_dictSet_ne _ _ _ _ h1, dictGet_dictPop_ne _ _ _ h2]
    exact h
  · rw [dictGet_dictSet_ne _ _ _ _ h1]
    exact h

lemma serialize_invoice_get_none (doc : Doc) (k : String)
    (h1 : k ≠ "id") (h2 : k ≠ "_id") (h : dictGet doc k = none) :
    dictGet (serialize_invoice doc) k = none := by
  unfold serialize_invoice
  by_cases hemp : doc.isEmpty
  · rw [if_pos hemp]
    exact h
  · rw [if_neg hemp]
    simp only [dateKeys, List.foldl]
    exact dictGet_isoStep_none _ _ _ (dictGet_isoStep_none _ _ _
      (dictGet_isoStep_none _ _ _ (dictGet_isoStep_none _ _ _
        (serializeIdStep_get_none doc k h1 h2 h))))

lemma serializeIdStep_get_id_null (doc : Doc) (hid : dictGet doc "_id" = none) :
    dictGet (serializeIdStep doc) "id" = some JVal.null := by
  unfold serializeIdStep
  rw [dictGetD, hid]
  simp [truthy, dictGet_dictSet_self]

lemma serialize_invoice_get_id_null (doc : Doc) (hid : dictGet doc "_id" = none) :
    (dictGet (serialize_invoice doc) "id").getD JVal.null = JVal.null := by
  unfold serialize_invoice
  by_cases hemp : doc.isEmpty
  · rw [if_pos hemp]
    have hd : doc = [] := List.isEmpty_iff.mp hemp
    subst hd
    rfl
  · rw [if_neg hemp]
    simp only [dateKeys, List.foldl]
    rw [dictGet_isoStep_ne _ _ _ (by decide), dictGet_isoStep_ne _ _ _ (by decide),
      dictGet_isoStep_ne _ _ _ (by decide), dictGet_isoStep_ne _ _ _ (by decide),
      serializeIdStep_get_id_null doc hid]
    rfl

lemma public_view_keys_eq (doc : Doc) : (public_view doc).map Prod.fst = publicKeys := rfl

lemma public_view_not_allowlisted (doc : Doc) (k : String) (hk : k ∉ publicKeys) :
    dictGet (public_view doc) k = none := by
  simp only [publicKeys, List.mem_cons, List.not_mem_nil, or_false, not_or] at hk
  obtain ⟨h1, h2, h3, h4, h5, h6, h7, h8, h9, h10, h11, h12, h13, h14, h15⟩ := hk
  simp [public_view, dictGet, beq_iff_eq, h1, h2, h3, h4, h5, h6, h7, h8, h9, h10,
    h11, h12, h13, h14, h15]

end DictLemmas

/-- C5: on both GET /api/invoices/{id} and GET /public/invoices/{id},
the response is HTTP 400 exactly when the identifier is not a
syntactically valid store identifier, and HTTP 404 exactly when it is
valid but no document with it exists; the two routes have identical
lookup and error semantics. -/
theorem invoice_routes_id_semantics (store : RStore) (idStr : String) :
    (get_invoice store idStr = .badRequest ↔ objectIdValid idStr = false)
    ∧ (get_invoice store idStr = .notFound
        ↔ (objectIdValid idStr = true ∧ find_one store idStr = none))
    ∧ (public_invoice store idStr = .badRequest ↔ get_invoice store idStr = .badRequest)
    ∧ (public_invoice store idStr = .notFound ↔ get_invoice store idStr = .notFound) := by
  unfold get_invoice public_invoice
  cases hval : objectIdValid idStr with
  | false => simp
  | true =>
      cases hf : find_one store idStr with
      | none => simp
      | some doc => simp

/-- C4: every successful response of GET /public/invoices/{id} carries
exactly the 15 allowlisted keys, in order, and no key outside the
allowlist - whatever fields the stored document contains. -/
theorem public_response_allowlisted (store : RStore) (idStr : String) (body : Doc)
    (h : public_invoice store idStr = GetResult.ok body) :
    body.map Prod.fst = publicKeys
    ∧ ∀ k, k ∉ publicKeys → dictGet body k = none := by
  unfold public_invoice at h
  cases hval : objectIdValid idStr with
  | false => simp [hval] at h
  | true =>
      simp only [hval, if_true] at h
      cases hf : find_one store idStr with
      | none => simp [hf] at h
      | some doc =>
          simp only [hf] at h
          injection h with hb
          subst hb
          exact ⟨rfl, fun k hk => public_view_not_allowlisted doc k hk⟩

theorem public_response_allowlisted_witness :
    (public_view secretDoc).map Prod.fst = publicKeys
    ∧ dictGet (public_view secretDoc) "internal_cost" = none :=
  ⟨(public_response_allowlisted secretStore oid24 (public_view secretDoc) rfl).1,
    (public_response_allowlisted secretStore oid24 (public_view secretDoc) rfl).2
      "internal_cost" (by decide)⟩

/-- C10: a found document's public view always carries all 15 keys; a
public key whose field is absent from the stored document comes back as
null, except `items`, which defaults to the empty list; the `id` key is
null when the stored document has no `_id`. -/
theorem public_view_defaults_null (store : RStore) (idStr : String) (doc : Doc)
    (hval : objectIdValid idStr = true) (hfind : find_one store idStr = some doc) :
    public_invoice store idStr = .ok (public_view doc)
    ∧ (∀ k, k ∈ publicKeys → (dictGet (public_view doc) k).isSome = true)
    ∧ (∀ k, k ∈ publicKeys → k ≠ "items" → k ≠ "id" → dictGet doc k = none →
        dictGet (public_view doc) k = some JVal.null)
    ∧ (dictGet doc "items" = none →
        dictGet (public_view doc) "items" = some (JVal.jarr []))
    ∧ (dictGet doc "_id" = none →
        dictGet (public_view doc) "id" = some JVal.null) := by
  refine ⟨?_, ?_, ?_, ?_, ?_⟩
  · simp [public_invoice, hval, hfind]
  · intro k hk
    simp only [publicKeys, List.mem_cons, List.not_mem_nil, or_false] at hk
    rcases hk with rfl|rfl|rfl|rfl|rfl|rfl|rfl|rfl|rfl|rfl|rfl|rfl|rfl|rfl|rfl <;> rfl
  · intro k hk hki hkid hnone
    have hne2 : k ≠ "_id" := by
      intro hkeq
      subst hkeq
      exact absurd hk (by decide)
    have hser : dictGet (serialize_invoice doc) k = none :=
      serialize_invoice_get_none doc k hkid hne2 hnone
    simp only [publicKeys, List.mem_cons, List.not_mem_nil, or_false] at hk
    rcases hk with rfl|rfl|rfl|rfl|rfl|rfl|rfl|rfl|rfl|rfl|rfl|rfl|rfl|rfl|rfl <;>
      first
        | exact absurd rfl hkid
        | exact absurd rfl hki
        | simp [public_view, dictGet, dictGetD, hser]
  · intro hnone
    have hser : dictGet (serialize_invoice doc) "items" = none :=
      serialize_invoice_get_none doc "items" (by decide) (by decide) hnone
    simp [public_view, dictGet, dictGetD, hser]
  · intro hidnone
    have hid := serialize_invoice_get_id_null doc hidnone
    simp only [public_view, dictGet, dictGetD]
    simp [hid]

theorem public_view_defaults_null_witness :
    public_invoice sparseStore oid24 = .ok (public_view sparseDoc)
    ∧ (dictGet (public_view sparseDoc) "notes").isSome = true
    ∧ dictGet (public_view sparseDoc) "notes" = some JVal.null
    ∧ dictGet (public_view sparseDoc) "items" = some (JVal.jarr [])
    ∧ dictGet (public_view sparseDoc) "id" = some JVal.null :=
  ⟨(public_view_defaults_null sparseStore oid24 sparseDoc rfl rfl).1,
    (public_view_defaults_null sparseStore oid24 sparseDoc rfl rfl).2.1
      "notes" (by decide),
    (public_view_defaults_null sparseStore oid24 sparseDoc rfl rfl).2.2.1
      "notes" (by decide) (by decide) (by decide) rfl,
    (public_view_defaults_null sparseStore oid24 sparseDoc rfl rfl).2.2.2.1 rfl,
    (public_view_defaults_null sparseStore oid24 sparseDoc rfl rfl).2.2.2.2 rfl⟩

end InvoiceApp
